import Mathlib

/-
Verification development for the ESP32 attendance-terminal controller
(src/tools/esp32_scan_send.ino).  The sketch's global state and its main
operations (active-event cache refresh, attendance posting, Time-In /
Time-Out scan processing, fingerprint enrollment, keypad numeric entry)
are shallowly embedded as pure Lean functions over an explicit state,
with the hardware / network environment passed in as oracle values.

Modelling conventions:
- HTTP status codes are Int (the Arduino HTTPClient returns negative
  codes on connection failure).
- millis() arithmetic is unsigned 32-bit; elapsed time is computed
  modulo 2^32 (elapsed32).
- Observable side effects (HTTP POST / GET, full-screen displayMessage
  calls, LED flashes) are recorded in an event trace.  Cursor-level
  partial lcd prints (progress fragments such as the two
  lcd.setCursor/lcd.print lines at the top of processTimeIn) and Serial
  logging are not modelled as screen events; every displayMessage /
  displayModeScreen call is.
- The fingerprint sensor's template store is a list of enrolled ids;
  loadModel(id) == OK is membership, deleteModel removes the id,
  storeModel appends it.
- Blocking wait loops (wait for finger, wait for removal, WiFi connect)
  are resolved by oracle values saying how the wait ended, with the
  Home-button cancellation checked exactly where the source checks it.
-/

namespace AttendanceTerminal

/-- Operating modes of the terminal (enum OperationMode in the source). -/
inductive OperationMode where
  | modeHome : OperationMode
  | modeTimeIn : OperationMode
  | modeTimeOut : OperationMode
  | modeEnroll : OperationMode
  deriving DecidableEq, Repr

/-- Observable side effects of one operation, in source order: an HTTP
POST to /esp-log (with the event id, fingerprint id and type it carries),
an HTTP GET of /events/active, a full 4-line screen write, an LED flash. -/
inductive Ev where
  | netPost : String → Nat → String → Ev
  | netGet : Ev
  | screen : String → String → String → String → Ev
  | ledOk : Ev
  | ledFail : Ev
  deriving DecidableEq, Repr

/-- Global mutable state of the sketch used by the modelled operations. -/
structure DeviceState where
  currentMode : OperationMode
  studentsTimeIn : List Nat
  currentEventId : String
  currentEventName : String
  lastSentFingerprint : Nat
  lastSentMillis : Nat
  deriving DecidableEq, Repr

/-- Outcome of one network interaction as seen by the sketch: either the
WiFi (re)connect attempt failed, or an HTTP exchange completed with a
status code and response body. -/
inductive NetResult where
  | noWifi : NetResult
  | http : Int → String → NetResult
  deriving DecidableEq, Repr

/-- Network environment for one postAttendance call: WiFi status after
connectWiFi, the status code of the POST, and the environment for the
refreshActiveEvent call the 404 branch makes. -/
structure NetEnv where
  wifiUp : Bool
  postCode : Int
  refreshResp : NetResult
  deriving DecidableEq, Repr

/-- Result of one sensor verification attempt, mirroring the prefix of
processTimeIn / processTimeOut: getImage failed (no finger), image2Tz
failed, fingerSearch found no match, or a match with a fingerprint id. -/
inductive ScanResult where
  | noFinger : ScanResult
  | extractFailed : ScanResult
  | noMatch : ScanResult
  | matched : Nat → ScanResult
  deriving DecidableEq, Repr

/-- Cooldown window: const unsigned long SEND_COOLDOWN_MS = 5000. -/
def SEND_COOLDOWN_MS : Nat := 5000

/-- Modulus of unsigned long millis() arithmetic. -/
def M32 : Nat := 4294967296

/-- Unsigned 32-bit difference now - last, as computed by the source's
(millis() - lastSentMillis) on unsigned long. -/
def elapsed32 (now last : Nat) : Nat :=
  (now % M32 + (M32 - last % M32)) % M32

/-- The literal double-quote character, written via its code point. -/
def quoteChar : Char := Char.ofNat 34

/-- String literal constants shared by several display messages. -/
def failHdr : String := "--- FAILED ---"

/-- Message text used both as a display line and as the cached event name
the 404 branch of refreshActiveEvent installs. -/
def noActiveMsg : String := "No Active Event"

/-- The literal type string for Time-In submissions. -/
def timeInStr : String := "Time-In"

/-- The literal type string for Time-Out submissions. -/
def timeOutStr : String := "Time-Out"

/-- displayMessage truncates each of the four lines to the 20-column LCD
width (String.substring(0, 20) in the source). -/
def displayMessage (l1 l2 l3 l4 : String) : Ev :=
  Ev.screen (l1.take 20) (l2.take 20) (l3.take 20) (l4.take 20)

/-- displayModeScreen renders the idle screen of the current mode from
the cached event state. -/
def displayModeScreen (s : DeviceState) : Ev :=
  let modeStr := if s.currentMode = OperationMode.modeTimeIn then "TIME-IN" else "TIME-OUT"
  if s.currentEventId.length = 0 then
    displayMessage ("MODE: " ++ modeStr) ("!! NO ACTIVE EVENT !!") ("") (" (Check server)")
  else
    displayMessage ("MODE: " ++ modeStr) ("Event: " ++ s.currentEventName.take 13)
      ("Place finger on") ("sensor to log...")

/-- Count of HTTP POST events in a trace. -/
def countPost : List Ev → Nat
  | [] => 0
  | Ev.netPost _ _ _ :: rest => countPost rest + 1
  | _ :: rest => countPost rest

/-- Count of HTTP GET events in a trace. -/
def countGet : List Ev → Nat
  | [] => 0
  | Ev.netGet :: rest => countGet rest + 1
  | _ :: rest => countGet rest

/-- Index of the first occurrence of needle in hay (String.indexOf of
the Arduino String class), as an Option instead of the -1 sentinel. -/
def findFrom (needle : List Char) : List Char → Option Nat
  | [] => if needle = [] then some 0 else none
  | c :: rest =>
      if needle.isPrefixOf (c :: rest) then some 0
      else (findFrom needle rest).map (· + 1)

/-- The marker the sketch scans for to locate the event id field. -/
def idMarker : List Char := [quoteChar, '_', 'i', 'd', quoteChar, ':', quoteChar]

/-- The marker the sketch scans for to locate the event name field. -/
def nameMarker : List Char := [quoteChar, 'n', 'a', 'm', 'e', quoteChar, ':', quoteChar]

/-- The ad hoc field extraction of refreshActiveEvent's 200 branch:
find the marker, skip it, take characters up to the next double quote;
yield [] when the marker is absent, unterminated, or the value is empty
(the source keeps newEventId = "" in exactly those cases). -/
def extractQuoted (marker payload : List Char) : List Char :=
  match findFrom marker payload with
  | none => []
  | some i =>
      let rest := payload.drop (i + marker.length)
      match findFrom [quoteChar] rest with
      | none => []
      | some j => if 0 < j then rest.take j else []

/-- refreshActiveEvent: GET /events/active; on 200 install the extracted
id and name and clear studentsTimeIn when the id changed; on 404 empty
the cache and clear studentsTimeIn when it was previously non-empty; on
any other code, or with no WiFi, change nothing. -/
def refreshActiveEvent (resp : NetResult) (s : DeviceState) : DeviceState × List Ev :=
  match resp with
  | NetResult.noWifi => (s, [])
  | NetResult.http code payload =>
      if code = 200 then
        let newEventId := String.mk (extractQuoted idMarker payload.data)
        let newEventName := String.mk (extractQuoted nameMarker payload.data)
        let s1 := { s with currentEventId := newEventId, currentEventName := newEventName }
        if newEventId ≠ s.currentEventId then
          ({ s1 with studentsTimeIn := [] }, [Ev.netGet])
        else (s1, [Ev.netGet])
      else if code = 404 then
        let s1 := { s with currentEventId := "", currentEventName := noActiveMsg }
        if 0 < s.currentEventId.length then
          ({ s1 with studentsTimeIn := [] }, [Ev.netGet])
        else (s1, [Ev.netGet])
      else (s, [Ev.netGet])

/-- postAttendance: refuse with no network call when the cached event id
is empty or WiFi is down; otherwise POST /esp-log and dispatch on the
status code (2xx success — Time-In additionally records the id in
studentsTimeIn; 404 — report no active event and invoke
refreshActiveEvent once; anything else — report the server error). -/
def postAttendance (env : NetEnv) (fpID : Nat) (ty : String) (s : DeviceState) :
    Bool × DeviceState × List Ev :=
  if s.currentEventId.length = 0 then
    (false, s, [displayMessage failHdr noActiveMsg ("Log skipped.") (""), Ev.ledFail])
  else if env.wifiUp = false then
    (false, s, [displayMessage failHdr ("WiFi Offline") ("Cannot send log.") (""), Ev.ledFail])
  else
    let postEv : Ev := Ev.netPost s.currentEventId fpID ty
    if env.postCode = 200 ∨ env.postCode = 201 then
      let s1 := if ty = timeInStr then
          { s with studentsTimeIn := s.studentsTimeIn ++ [fpID] } else s
      (true, s1, [postEv, Ev.ledOk])
    else if env.postCode = 404 then
      let r := refreshActiveEvent env.refreshResp s
      (false, r.1,
        postEv :: displayMessage failHdr noActiveMsg ("(Server 404)") ("Refreshing...") :: r.2
          ++ [Ev.ledFail])
    else
      (false, s,
        [postEv, displayMessage failHdr ("Server Error") ("Code: " ++ toString env.postCode) (""),
         Ev.ledFail])

/-- processTimeIn: one verification attempt in TIME-IN mode.  On a match,
suppress when the shared cooldown guard matches, reject when the id is
already in studentsTimeIn, otherwise update the guard and submit. -/
def processTimeIn (scan : ScanResult) (now : Nat) (env : NetEnv) (s : DeviceState) :
    DeviceState × List Ev :=
  match scan with
  | ScanResult.noFinger => (s, [])
  | ScanResult.extractFailed => (s, [displayModeScreen s])
  | ScanResult.noMatch =>
      (s, [displayMessage ("--- NO MATCH ---") ("Finger not found.") ("Please try again.") (""),
           Ev.ledFail, displayModeScreen s])
  | ScanResult.matched id =>
      if id = s.lastSentFingerprint ∧ elapsed32 now s.lastSentMillis < SEND_COOLDOWN_MS then
        (s, [displayModeScreen s])
      else if id ∈ s.studentsTimeIn then
        (s, [displayMessage failHdr ("ID: " ++ toString id ++ " already") ("logged TIME-IN.") (""),
             Ev.ledFail, displayModeScreen s])
      else
        let s1 : DeviceState := { s with lastSentFingerprint := id, lastSentMillis := now }
        let r := postAttendance env id timeInStr s1
        let succ : List Ev :=
          if r.1 then
            [displayMessage ("--- SUCCESS ---") ("ID: " ++ toString id ++ " Logged") timeInStr
              ("Event: " ++ r.2.1.currentEventName.take 13)]
          else []
        (r.2.1,
         displayMessage ("--- MATCH ---") ("ID: " ++ toString id) ("Sending to server...") ("")
           :: r.2.2 ++ succ ++ [displayModeScreen r.2.1])

/-- processTimeOut: one verification attempt in TIME-OUT mode.  Same
shared cooldown guard as processTimeIn, but no local Time-In-set check. -/
def processTimeOut (scan : ScanResult) (now : Nat) (env : NetEnv) (s : DeviceState) :
    DeviceState × List Ev :=
  match scan with
  | ScanResult.noFinger => (s, [])
  | ScanResult.extractFailed => (s, [displayModeScreen s])
  | ScanResult.noMatch =>
      (s, [displayMessage ("--- NO MATCH ---") ("Finger not found.") ("Please try again.") (""),
           Ev.ledFail, displayModeScreen s])
  | ScanResult.matched id =>
      if id = s.lastSentFingerprint ∧ elapsed32 now s.lastSentMillis < SEND_COOLDOWN_MS then
        (s, [displayModeScreen s])
      else
        let s1 : DeviceState := { s with lastSentFingerprint := id, lastSentMillis := now }
        let r := postAttendance env id timeOutStr s1
        let succ : List Ev :=
          if r.1 then
            [displayMessage ("--- SUCCESS ---") ("ID: " ++ toString id ++ " Logged") timeOutStr
              ("Event: " ++ r.2.1.currentEventName.take 13)]
          else []
        (r.2.1,
         displayMessage ("--- MATCH ---") ("ID: " ++ toString id) ("Sending to server...") ("")
           :: r.2.2 ++ succ ++ [displayModeScreen r.2.1])

/-- How one of enrollFingerprint's blocking wait loops ended: the Home
button flag was seen set on some poll iteration, or the awaited sensor
condition arrived. -/
inductive WaitRes where
  | canceled : WaitRes
  | done : WaitRes
  deriving DecidableEq, Repr

/-- Oracle for one enrollFingerprint run: whether deleteModel succeeds
when invoked, how each wait loop ends, and the success of image2Tz(1),
image2Tz(2), createModel and storeModel when they are reached. -/
structure EnrollEnv where
  deleteOk : Bool
  wait1 : WaitRes
  tz1Ok : Bool
  waitRemove : WaitRes
  wait2 : WaitRes
  tz2Ok : Bool
  createOk : Bool
  storeOk : Bool
  deriving DecidableEq, Repr

/-- Exit point of one enrollFingerprint run, one per return in the source. -/
inductive EnrollOutcome where
  | deleteFailed : EnrollOutcome
  | canceledScan1 : EnrollOutcome
  | image1Failed : EnrollOutcome
  | canceledRemove : EnrollOutcome
  | canceledScan2 : EnrollOutcome
  | image2Failed : EnrollOutcome
  | mismatch : EnrollOutcome
  | storeFailed : EnrollOutcome
  | stored : EnrollOutcome
  deriving DecidableEq, Repr

/-- State left by one enrollFingerprint run: which exit was taken, the
sensor's template store, and currentMode (set to Home on cancellation). -/
structure EnrollResult where
  outcome : EnrollOutcome
  templates : List Nat
  mode : OperationMode
  deriving DecidableEq, Repr

/-- enrollFingerprint: delete any existing template for id (abort if the
delete fails), wait for scan 1, extract, wait for removal, wait for
scan 2, extract, combine, store.  Each wait loop aborts to Home when the
Home flag is seen; each sensor failure aborts at its own exit. -/
def enrollFingerprint (env : EnrollEnv) (id : Nat) (templates : List Nat)
    (mode : OperationMode) : EnrollResult :=
  let afterDelete : List Nat → EnrollResult := fun ts =>
    if env.wait1 = WaitRes.canceled then
      { outcome := EnrollOutcome.canceledScan1, templates := ts, mode := OperationMode.modeHome }
    else if env.tz1Ok = false then
      { outcome := EnrollOutcome.image1Failed, templates := ts, mode := mode }
    else if env.waitRemove = WaitRes.canceled then
      { outcome := EnrollOutcome.canceledRemove, templates := ts, mode := OperationMode.modeHome }
    else if env.wait2 = WaitRes.canceled then
      { outcome := EnrollOutcome.canceledScan2, templates := ts, mode := OperationMode.modeHome }
    else if env.tz2Ok = false then
      { outcome := EnrollOutcome.image2Failed, templates := ts, mode := mode }
    else if env.createOk = false then
      { outcome := EnrollOutcome.mismatch, templates := ts, mode := mode }
    else if env.storeOk then
      { outcome := EnrollOutcome.stored, templates := ts ++ [id], mode := mode }
    else
      { outcome := EnrollOutcome.storeFailed, templates := ts, mode := mode }
  if id ∈ templates then
    if env.deleteOk then afterDelete (templates.filter fun x => x ≠ id)
    else { outcome := EnrollOutcome.deleteFailed, templates := templates, mode := mode }
  else afterDelete templates

/-- One observed iteration of the getKeypadID poll loop: the Home flag
was seen set, a debounced key was read, or nothing happened. -/
inductive KeyEv where
  | home : KeyEv
  | press : Char → KeyEv
  | idle : KeyEv
  deriving DecidableEq, Repr

/-- How the getKeypadID loop exited: Home cancellation, or the
terminator key with the accumulated digit string. -/
inductive KeypadExit where
  | canceledEntry : KeypadExit
  | finished : String → KeypadExit
  deriving DecidableEq, Repr

/-- The empty initial idString of getKeypadID. -/
def idString0 : String := ""

/-- The while(true) loop of getKeypadID: check the Home flag first, then
the key read this iteration — digits append while fewer than 4 are held,
the terminator finishes, the asterisk removes the last digit.  none
means the supplied iterations ran out with the loop still going. -/
def keypadLoop : List KeyEv → String → Option KeypadExit
  | [], _ => none
  | KeyEv.home :: _, _ => some KeypadExit.canceledEntry
  | KeyEv.press c :: rest, acc =>
      if '0' ≤ c ∧ c ≤ '9' then
        keypadLoop rest (if acc.length < 4 then acc.push c else acc)
      else if c = '#' then some (KeypadExit.finished acc)
      else if c = '*' then
        keypadLoop rest (if 0 < acc.length then acc.dropRight 1 else acc)
      else keypadLoop rest acc
  | KeyEv.idle :: rest, acc => keypadLoop rest acc

/-- Arduino String.toInt on the digit-only strings getKeypadID builds. -/
def strToInt (s : String) : Nat :=
  s.data.foldl (fun a c => a * 10 + (c.toNat - 48)) 0

/-- getKeypadID: run the entry loop from an empty string; on Home
cancellation set currentMode to Home and return 0; on a finished entry
return its value when it lies in 1..1000 and 0 otherwise.  The result
pairs the returned id with the currentMode left behind, the pair the
caller in loop() inspects; none means the loop never exited. -/
def getKeypadID (evs : List KeyEv) (mode : OperationMode) : Option (Nat × OperationMode) :=
  match keypadLoop evs idString0 with
  | none => none
  | some KeypadExit.canceledEntry => some (0, OperationMode.modeHome)
  | some (KeypadExit.finished acc) =>
      if 0 < acc.length then
        if 1 ≤ strToInt acc ∧ strToInt acc ≤ 1000 then some (strToInt acc, mode)
        else some (0, mode)
      else some (0, mode)

/-- Concrete device state with a cached active event, used by witnesses. -/
def s0 : DeviceState :=
  { currentMode := OperationMode.modeTimeIn, studentsTimeIn := [],
    currentEventId := "E1", currentEventName := "Sports Day",
    lastSentFingerprint := 0, lastSentMillis := 0 }

/-- Concrete device state with an empty cached event id, used by witnesses. -/
def sEmpty : DeviceState :=
  { currentMode := OperationMode.modeTimeIn, studentsTimeIn := [3],
    currentEventId := "", currentEventName := "",
    lastSentFingerprint := 0, lastSentMillis := 0 }

/-- Concrete device state whose Time-In set already holds id 5, with a
cooldown guard that does not match id 5. -/
def sDup : DeviceState :=
  { currentMode := OperationMode.modeTimeIn, studentsTimeIn := [5],
    currentEventId := "E1", currentEventName := "Sports Day",
    lastSentFingerprint := 0, lastSentMillis := 0 }

/-- Network environment where everything succeeds with a 200. -/
def envOk : NetEnv :=
  { wifiUp := true, postCode := 200, refreshResp := NetResult.noWifi }

/-- Network environment whose POST answers 404 and whose follow-up
active-event query also answers 404. -/
def env404 : NetEnv :=
  { wifiUp := true, postCode := 404, refreshResp := NetResult.http 404 "" }

/-- Enrollment oracle where every step succeeds. -/
def envEnrollOk : EnrollEnv :=
  { deleteOk := true, wait1 := WaitRes.done, tz1Ok := true, waitRemove := WaitRes.done,
    wait2 := WaitRes.done, tz2Ok := true, createOk := true, storeOk := true }

/-- Enrollment oracle where scan 1 extraction (image2Tz(1)) fails. -/
def envEnrollTz1Fail : EnrollEnv :=
  { deleteOk := true, wait1 := WaitRes.done, tz1Ok := false, waitRemove := WaitRes.done,
    wait2 := WaitRes.done, tz2Ok := true, createOk := true, storeOk := true }

/-- Enrollment oracle where the Home flag is seen during the scan-1 wait. -/
def envEnrollCancel1 : EnrollEnv :=
  { deleteOk := true, wait1 := WaitRes.canceled, tz1Ok := true, waitRemove := WaitRes.done,
    wait2 := WaitRes.done, tz2Ok := true, createOk := true, storeOk := true }

/-- Concrete well-formed active-event payload used by witnesses. -/
def payloadE1 : String := "\"_id\":\"E1\",\"name\":\"Sports Day\""

set_option maxHeartbeats 1000000

/-- A string has length zero exactly when it is the empty string. -/
theorem string_length_zero_iff (s : String) : s.length = 0 ↔ s = "" := by
  constructor
  · intro h
    exact String.ext (List.length_eq_zero.mp h)
  · intro h
    rw [h]
    rfl

/-- countPost distributes over trace concatenation. -/
theorem countPost_append (l1 l2 : List Ev) :
    countPost (l1 ++ l2) = countPost l1 + countPost l2 := by
  induction l1 with
  | nil => simp [countPost]
  | cons e rest ih =>
    cases e <;> simp [countPost, ih] <;> omega

/-- countGet distributes over trace concatenation. -/
theorem countGet_append (l1 l2 : List Ev) :
    countGet (l1 ++ l2) = countGet l1 + countGet l2 := by
  induction l1 with
  | nil => simp [countGet]
  | cons e rest ih =>
    cases e <;> simp [countGet, ih] <;> omega

/-- The mode screen is a screen write, not counted as a POST. -/
theorem countPost_modeScreen (s : DeviceState) (l : List Ev) :
    countPost (displayModeScreen s :: l) = countPost l := by
  simp only [displayModeScreen, displayMessage]
  split <;> simp [countPost]

/-- The mode screen is a screen write, not counted as a GET. -/
theorem countGet_modeScreen (s : DeviceState) (l : List Ev) :
    countGet (displayModeScreen s :: l) = countGet l := by
  simp only [displayModeScreen, displayMessage]
  split <;> simp [countGet]

/-- Every completed HTTP exchange inside refreshActiveEvent performs
exactly one GET. -/
theorem countGet_refresh_http (c : Int) (p : String) (s : DeviceState) :
    countGet (refreshActiveEvent (NetResult.http c p) s).2 = 1 := by
  simp only [refreshActiveEvent]
  split
  · split <;> simp [countGet]
  · split
    · split <;> simp [countGet]
    · simp [countGet]

/-- refreshActiveEvent performs no POST. -/
theorem countPost_refresh (resp : NetResult) (s : DeviceState) :
    countPost (refreshActiveEvent resp s).2 = 0 := by
  cases resp with
  | noWifi => simp [refreshActiveEvent, countPost]
  | http c p =>
    simp only [refreshActiveEvent]
    split
    · split <;> simp [countPost]
    · split
      · split <;> simp [countPost]
      · simp [countPost]

/-- refreshActiveEvent leaves the cooldown guard and the mode alone. -/
theorem refresh_preserves_guard (resp : NetResult) (s : DeviceState) :
    (refreshActiveEvent resp s).1.lastSentFingerprint = s.lastSentFingerprint ∧
    (refreshActiveEvent resp s).1.lastSentMillis = s.lastSentMillis := by
  cases resp with
  | noWifi => simp [refreshActiveEvent]
  | http c p =>
    simp only [refreshActiveEvent]
    split
    · split <;> simp
    · split
      · split <;> simp
      · simp

/-- refreshActiveEvent either keeps the local Time-In set or clears it. -/
theorem refresh_set_cases (resp : NetResult) (s : DeviceState) :
    (refreshActiveEvent resp s).1.studentsTimeIn = s.studentsTimeIn ∨
    (refreshActiveEvent resp s).1.studentsTimeIn = [] := by
  cases resp with
  | noWifi => simp [refreshActiveEvent]
  | http c p =>
    simp only [refreshActiveEvent]
    split
    · split
      · right; simp
      · left; simp
    · split
      · split
        · right; simp
        · left; simp
      · left; simp

/-- C2: a refresh of the active-event cache clears LocalTimeInSet exactly
when the resulting event id differs from the previous one, keeps it when
the id is unchanged, and changes nothing at all on a WiFi failure or on a
status code other than 200 and 404. -/
theorem C2_refresh_cache_invalidation (resp : NetResult) (s : DeviceState) :
    ((refreshActiveEvent resp s).1.currentEventId ≠ s.currentEventId →
        (refreshActiveEvent resp s).1.studentsTimeIn = []) ∧
    ((refreshActiveEvent resp s).1.currentEventId = s.currentEventId →
        (refreshActiveEvent resp s).1.studentsTimeIn = s.studentsTimeIn) ∧
    (resp = NetResult.noWifi → (refreshActiveEvent resp s).1 = s) ∧
    (∀ c p, resp = NetResult.http c p → c ≠ 200 → c ≠ 404 →
        (refreshActiveEvent resp s).1 = s) := by
  cases resp with
  | noWifi => simp [refreshActiveEvent]
  | http c p =>
    by_cases h200 : c = 200
    · subst h200
      by_cases hid : String.mk (extractQuoted idMarker p.data) = s.currentEventId
      · simp [refreshActiveEvent, hid]
      · simp [refreshActiveEvent, hid]
    · by_cases h404 : c = 404
      · subst h404
        by_cases hlen : 0 < s.currentEventId.length
        · have hne : s.currentEventId ≠ "" := by
            intro he
            rw [he] at hlen
            simp at hlen
          simp [refreshActiveEvent, h200, hlen, hne]
          intro h
          exact absurd h.symm hne
        · have : s.currentEventId.length = 0 := Nat.eq_zero_of_not_pos hlen
          have he : s.currentEventId = "" := (string_length_zero_iff _).mp this
          simp [refreshActiveEvent, h200, hlen, he]
      · simp [refreshActiveEvent, h200, h404]

/-- C2 witness: a 404 refresh from a state caching event E1 clears the
local Time-In set. -/
theorem C2_refresh_cache_invalidation_witness :
    (refreshActiveEvent (NetResult.http 404 "") sDup).1.currentEventId ≠ sDup.currentEventId ∧
    (refreshActiveEvent (NetResult.http 404 "") sDup).1.studentsTimeIn = [] := by
  refine ⟨by decide, ?_⟩
  exact (C2_refresh_cache_invalidation (NetResult.http 404 "") sDup).1 (by decide)

/-- C5: a postAttendance call made while the cached event id is empty
fails with the no-active-event screen, performs no network call of either
kind and leaves the whole device state (LocalTimeInSet and cache
included) unchanged. -/
theorem C5_post_emptyEvent_noNetwork (env : NetEnv) (fp : Nat) (ty : String) (s : DeviceState)
    (h : s.currentEventId.length = 0) :
    (postAttendance env fp ty s).1 = false ∧
    (postAttendance env fp ty s).2.1 = s ∧
    countPost (postAttendance env fp ty s).2.2 = 0 ∧
    countGet (postAttendance env fp ty s).2.2 = 0 ∧
    displayMessage failHdr noActiveMsg ("Log skipped.") ("") ∈ (postAttendance env fp ty s).2.2 := by
  simp [postAttendance, h, countPost, countGet, displayMessage]

/-- C5 witness: the theorem applied to a concrete empty-event state. -/
theorem C5_post_emptyEvent_noNetwork_witness :
    sEmpty.currentEventId.length = 0 ∧
    ((postAttendance envOk 5 timeInStr sEmpty).1 = false ∧
      (postAttendance envOk 5 timeInStr sEmpty).2.1 = sEmpty) := by
  refine ⟨by decide, ?_, ?_⟩
  · exact (C5_post_emptyEvent_noNetwork envOk 5 timeInStr sEmpty (by decide)).1
  · exact (C5_post_emptyEvent_noNetwork envOk 5 timeInStr sEmpty (by decide)).2.1

/-- C4: a postAttendance call answered with 404 fails, reports the
no-active-event screen, and hands the state to exactly one
refreshActiveEvent call before returning (hence before any further
submission attempt); when that refresh gets an HTTP answer the trace
holds exactly one GET; and no POST is ever emitted while the cached
event id is empty. -/
theorem C4_post_404_triggers_refresh (env : NetEnv) (fp : Nat) (ty : String) (s : DeviceState) :
    (s.currentEventId.length ≠ 0 → env.wifiUp = true → env.postCode = 404 →
      (postAttendance env fp ty s).1 = false ∧
      (postAttendance env fp ty s).2.1 = (refreshActiveEvent env.refreshResp s).1 ∧
      countGet (postAttendance env fp ty s).2.2 = countGet (refreshActiveEvent env.refreshResp s).2 ∧
      (∀ c p, env.refreshResp = NetResult.http c p →
        countGet (postAttendance env fp ty s).2.2 = 1) ∧
      displayMessage failHdr noActiveMsg ("(Server 404)") ("Refreshing...")
        ∈ (postAttendance env fp ty s).2.2) ∧
    (s.currentEventId.length = 0 → countPost (postAttendance env fp ty s).2.2 = 0) := by
  constructor
  · intro hlen hw hc
    have h200 : ¬(env.postCode = 200 ∨ env.postCode = 201) := by
      rw [hc]; decide
    have htr : (postAttendance env fp ty s).2.2 =
        (Ev.netPost s.currentEventId fp ty ::
          displayMessage failHdr noActiveMsg ("(Server 404)") ("Refreshing...") ::
          (refreshActiveEvent env.refreshResp s).2) ++ [Ev.ledFail] := by
      simp [postAttendance, hlen, hw, hc, h200]
    refine ⟨?_, ?_, ?_, ?_, ?_⟩
    · simp [postAttendance, hlen, hw, hc, h200]
    · simp [postAttendance, hlen, hw, hc, h200]
    · rw [htr]
      simp [countGet, countGet_append, displayMessage]
    · intro c p hresp
      rw [htr, hresp]
      have h1 := countGet_refresh_http c p s
      simp [countGet, countGet_append, displayMessage, h1]
    · rw [htr]
      simp
  · intro hlen
    simp [postAttendance, hlen, countPost, displayMessage]

/-- C4 witness: a concrete 404 POST followed by a 404 refresh produces
exactly one GET. -/
theorem C4_post_404_triggers_refresh_witness :
    s0.currentEventId.length ≠ 0 ∧
    countGet (postAttendance env404 5 timeInStr s0).2.2 = 1 := by
  refine ⟨by decide, ?_⟩
  exact ((C4_post_404_triggers_refresh env404 5 timeInStr s0).1 (by decide) (by decide)
    (by decide)).2.2.2.1 404 "" (by decide)

/-- C1 counterexample: with a template already stored for id 7, an
enrollment of id 7 that aborts at the scan-1 extraction step (an abort
path of the claim) leaves the stored-template set empty, not as it was
before the enrollment began — the delete-for-overwrite already ran. -/
theorem C1_counterexample :
    (enrollFingerprint envEnrollTz1Fail 7 [7] OperationMode.modeEnroll).outcome
        = EnrollOutcome.image1Failed ∧
    (enrollFingerprint envEnrollTz1Fail 7 [7] OperationMode.modeEnroll).templates = [] ∧
    (enrollFingerprint envEnrollTz1Fail 7 [7] OperationMode.modeEnroll).templates ≠ [7] := by
  decide

/-- C1 (amended): a template is stored only when both scans were
captured and extracted successfully and the combine step judged them
consistent (and the store itself succeeded), and every abort path leaves
the stored-template set unchanged except that a pre-existing template
for the target id may already have been deleted by the overwrite step;
in particular, when no template existed for the id beforehand, every
abort path leaves the set exactly as it was. -/
theorem C1_enroll_store_conditions (env : EnrollEnv) (id : Nat) (ts : List Nat)
    (m : OperationMode) :
    ((enrollFingerprint env id ts m).outcome = EnrollOutcome.stored →
      env.wait1 = WaitRes.done ∧ env.tz1Ok = true ∧ env.waitRemove = WaitRes.done ∧
      env.wait2 = WaitRes.done ∧ env.tz2Ok = true ∧ env.createOk = true ∧ env.storeOk = true ∧
      id ∈ (enrollFingerprint env id ts m).templates) ∧
    ((enrollFingerprint env id ts m).outcome ≠ EnrollOutcome.stored →
      (enrollFingerprint env id ts m).templates = ts ∨
      (enrollFingerprint env id ts m).templates = ts.filter fun x => x ≠ id) ∧
    (id ∉ ts → (enrollFingerprint env id ts m).outcome ≠ EnrollOutcome.stored →
      (enrollFingerprint env id ts m).templates = ts) := by
  by_cases hmem : id ∈ ts
  · by_cases hdel : env.deleteOk
    · cases hw1 : env.wait1 <;> cases ht1 : env.tz1Ok <;> cases hwr : env.waitRemove <;>
        cases hw2 : env.wait2 <;> cases ht2 : env.tz2Ok <;> cases hco : env.createOk <;>
        cases hso : env.storeOk <;>
        simp [enrollFingerprint, hmem, hdel, hw1, ht1, hwr, hw2, ht2, hco, hso]
    · simp [enrollFingerprint, hmem, hdel]
  · cases hw1 : env.wait1 <;> cases ht1 : env.tz1Ok <;> cases hwr : env.waitRemove <;>
      cases hw2 : env.wait2 <;> cases ht2 : env.tz2Ok <;> cases hco : env.createOk <;>
      cases hso : env.storeOk <;>
      simp [enrollFingerprint, hmem, hw1, ht1, hwr, hw2, ht2, hco, hso]

/-- C1 witness: the all-success oracle stores a template for id 7. -/
theorem C1_enroll_store_conditions_witness :
    (enrollFingerprint envEnrollOk 7 [] OperationMode.modeEnroll).outcome
        = EnrollOutcome.stored ∧
    7 ∈ (enrollFingerprint envEnrollOk 7 [] OperationMode.modeEnroll).templates := by
  refine ⟨by decide, ?_⟩
  exact ((C1_enroll_store_conditions envEnrollOk 7 [] OperationMode.modeEnroll).1
    (by decide)).2.2.2.2.2.2.2

/-- C6: a Home event observed at any of the three enrollment wait loops
aborts with a cancellation outcome, sets the mode to Home, and leaves no
template stored for the target identifier; in particular a Home event at
the scan-1 wait (when any needed delete succeeded) always exits through
the scan-1 cancellation path. -/
theorem C6_enroll_home_cancel (env : EnrollEnv) (id : Nat) (ts : List Nat) (m : OperationMode) :
    (((enrollFingerprint env id ts m).outcome = EnrollOutcome.canceledScan1 ∨
      (enrollFingerprint env id ts m).outcome = EnrollOutcome.canceledRemove ∨
      (enrollFingerprint env id ts m).outcome = EnrollOutcome.canceledScan2) →
      (enrollFingerprint env id ts m).mode = OperationMode.modeHome ∧
      id ∉ (enrollFingerprint env id ts m).templates) ∧
    ((id ∈ ts → env.deleteOk = true) → env.wait1 = WaitRes.canceled →
      (enrollFingerprint env id ts m).outcome = EnrollOutcome.canceledScan1 ∧
      (enrollFingerprint env id ts m).mode = OperationMode.modeHome ∧
      id ∉ (enrollFingerprint env id ts m).templates) := by
  by_cases hmem : id ∈ ts
  · by_cases hdel : env.deleteOk
    · cases hw1 : env.wait1 <;> cases ht1 : env.tz1Ok <;> cases hwr : env.waitRemove <;>
        cases hw2 : env.wait2 <;> cases ht2 : env.tz2Ok <;> cases hco : env.createOk <;>
        cases hso : env.storeOk <;>
        simp [enrollFingerprint, hmem, hdel, hw1, ht1, hwr, hw2, ht2, hco, hso]
    · simp [enrollFingerprint, hmem, hdel]
  · cases hw1 : env.wait1 <;> cases ht1 : env.tz1Ok <;> cases hwr : env.waitRemove <;>
      cases hw2 : env.wait2 <;> cases ht2 : env.tz2Ok <;> cases hco : env.createOk <;>
      cases hso : env.storeOk <;>
      simp [enrollFingerprint, hmem, hw1, ht1, hwr, hw2, ht2, hco, hso]

/-- C6 witness: a Home event during the scan-1 wait of an enrollment of
the already-enrolled id 7 cancels to Home with no template left for 7. -/
theorem C6_enroll_home_cancel_witness :
    (enrollFingerprint envEnrollCancel1 7 [7] OperationMode.modeEnroll).outcome
        = EnrollOutcome.canceledScan1 ∧
    (enrollFingerprint envEnrollCancel1 7 [7] OperationMode.modeEnroll).mode
        = OperationMode.modeHome ∧
    7 ∉ (enrollFingerprint envEnrollCancel1 7 [7] OperationMode.modeEnroll).templates := by
  exact (C6_enroll_home_cancel envEnrollCancel1 7 [7] OperationMode.modeEnroll).2
    (by decide) (by decide)

/-- postAttendance never touches the cooldown guard fields. -/
theorem post_preserves_guard (env : NetEnv) (fp : Nat) (ty : String) (s : DeviceState) :
    (postAttendance env fp ty s).2.1.lastSentFingerprint = s.lastSentFingerprint ∧
    (postAttendance env fp ty s).2.1.lastSentMillis = s.lastSentMillis := by
  simp only [postAttendance]
  split
  · simp
  · split
    · simp
    · split
      · split <;> simp
      · split
        · simpa using refresh_preserves_guard env.refreshResp s
        · simp

/-- With a cached event id and WiFi up, postAttendance emits exactly one
POST whatever the response code is. -/
theorem countPost_post_online (env : NetEnv) (fp : Nat) (ty : String) (s : DeviceState)
    (hlen : s.currentEventId.length ≠ 0) (hw : env.wifiUp = true) :
    countPost (postAttendance env fp ty s).2.2 = 1 := by
  have hw2 : ¬ env.wifiUp = false := by simp [hw]
  have h0 := countPost_refresh env.refreshResp s
  simp only [postAttendance]
  rw [if_neg hlen, if_neg hw2]
  split
  · simp [countPost, displayMessage]
  · split
    · simp [countPost, countPost_append, displayMessage, h0]
    · simp [countPost, displayMessage]

/-- With no WiFi after connectWiFi, postAttendance emits no network event. -/
theorem counts_post_offline (env : NetEnv) (fp : Nat) (ty : String) (s : DeviceState)
    (hw : env.wifiUp = false) :
    countPost (postAttendance env fp ty s).2.2 = 0 ∧
    countGet (postAttendance env fp ty s).2.2 = 0 := by
  simp only [postAttendance, hw]
  split
  · simp [countPost, countGet, displayMessage]
  · simp [countPost, countGet, displayMessage]

/-- C9: the cooldown guard (lastSentFingerprint, lastSentMillis) is the
single pair shared by both scan handlers: a matched scan that passes the
local checks writes (id, now) into it before the network call and for
every network outcome; a Time-In scan rejected as already logged locally
leaves the guard untouched and performs no network I/O; and once the
guard holds (id, t), a matched scan of the same id within the cooldown
window is suppressed by either handler, leaving the state unchanged and
showing only the idle mode screen. -/
theorem C9_shared_guard_semantics (env : NetEnv) (id now : Nat) (s : DeviceState) :
    (¬(id = s.lastSentFingerprint ∧ elapsed32 now s.lastSentMillis < SEND_COOLDOWN_MS) →
      (id ∉ s.studentsTimeIn →
        (processTimeIn (ScanResult.matched id) now env s).1.lastSentFingerprint = id ∧
        (processTimeIn (ScanResult.matched id) now env s).1.lastSentMillis = now) ∧
      ((processTimeOut (ScanResult.matched id) now env s).1.lastSentFingerprint = id ∧
        (processTimeOut (ScanResult.matched id) now env s).1.lastSentMillis = now)) ∧
    (id ∈ s.studentsTimeIn →
      ¬(id = s.lastSentFingerprint ∧ elapsed32 now s.lastSentMillis < SEND_COOLDOWN_MS) →
      (processTimeIn (ScanResult.matched id) now env s).1 = s ∧
      countPost (processTimeIn (ScanResult.matched id) now env s).2 = 0 ∧
      countGet (processTimeIn (ScanResult.matched id) now env s).2 = 0) ∧
    (∀ now2 env2, id = s.lastSentFingerprint →
      elapsed32 now2 s.lastSentMillis < SEND_COOLDOWN_MS →
      processTimeIn (ScanResult.matched id) now2 env2 s = (s, [displayModeScreen s]) ∧
      processTimeOut (ScanResult.matched id) now2 env2 s = (s, [displayModeScreen s])) := by
  refine ⟨?_, ?_, ?_⟩
  · intro hc
    refine ⟨?_, ?_, ?_⟩
    · intro hmem
      simp only [processTimeIn]
      rw [if_neg hc, if_neg hmem]
      constructor
      · simpa using (post_preserves_guard env id timeInStr
          { s with lastSentFingerprint := id, lastSentMillis := now }).1
      · simpa using (post_preserves_guard env id timeInStr
          { s with lastSentFingerprint := id, lastSentMillis := now }).2
    · simp only [processTimeOut]
      rw [if_neg hc]
      simpa using (post_preserves_guard env id timeOutStr
        { s with lastSentFingerprint := id, lastSentMillis := now }).1
    · simp only [processTimeOut]
      rw [if_neg hc]
      simpa using (post_preserves_guard env id timeOutStr
        { s with lastSentFingerprint := id, lastSentMillis := now }).2
  · intro hmem hc
    simp only [processTimeIn]
    rw [if_neg hc, if_pos hmem]
    refine ⟨rfl, ?_, ?_⟩
    · simp [countPost, displayMessage, countPost_modeScreen]
    · simp [countGet, displayMessage, countGet_modeScreen]
  · intro now2 env2 h1 h2
    constructor
    · simp only [processTimeIn]
      rw [if_pos ⟨h1, h2⟩]
    · simp only [processTimeOut]
      rw [if_pos ⟨h1, h2⟩]

/-- C9 witness: with the guard holding (0, 0), a Time-Out scan of id 0
at time 3 is suppressed with only the mode screen shown. -/
theorem C9_shared_guard_semantics_witness :
    processTimeOut (ScanResult.matched 0) 3 envOk s0 = (s0, [displayModeScreen s0]) := by
  exact ((C9_shared_guard_semantics envOk 0 3 s0).2.2 3 envOk (by decide) (by decide)).2

/-- A matched Time-In scan hitting the cooldown guard only redraws the
mode screen and changes nothing. -/
theorem processTimeIn_suppressed (env : NetEnv) (id now : Nat) (s : DeviceState)
    (h1 : id = s.lastSentFingerprint)
    (h2 : elapsed32 now s.lastSentMillis < SEND_COOLDOWN_MS) :
    processTimeIn (ScanResult.matched id) now env s = (s, [displayModeScreen s]) := by
  simp only [processTimeIn]
  rw [if_pos ⟨h1, h2⟩]

/-- A matched Time-Out scan hitting the cooldown guard only redraws the
mode screen and changes nothing. -/
theorem processTimeOut_suppressed (env : NetEnv) (id now : Nat) (s : DeviceState)
    (h1 : id = s.lastSentFingerprint)
    (h2 : elapsed32 now s.lastSentMillis < SEND_COOLDOWN_MS) :
    processTimeOut (ScanResult.matched id) now env s = (s, [displayModeScreen s]) := by
  simp only [processTimeOut]
  rw [if_pos ⟨h1, h2⟩]

/-- A matched Time-In scan that passes the cooldown and the local set
check installs (id, now) in the guard. -/
theorem processTimeIn_guard_update (env : NetEnv) (id now : Nat) (s : DeviceState)
    (hc : ¬(id = s.lastSentFingerprint ∧ elapsed32 now s.lastSentMillis < SEND_COOLDOWN_MS))
    (hmem : id ∉ s.studentsTimeIn) :
    (processTimeIn (ScanResult.matched id) now env s).1.lastSentFingerprint = id ∧
    (processTimeIn (ScanResult.matched id) now env s).1.lastSentMillis = now := by
  simp only [processTimeIn]
  rw [if_neg hc, if_neg hmem]
  constructor
  · simpa using (post_preserves_guard env id timeInStr
      { s with lastSentFingerprint := id, lastSentMillis := now }).1
  · simpa using (post_preserves_guard env id timeInStr
      { s with lastSentFingerprint := id, lastSentMillis := now }).2

/-- A matched Time-Out scan that passes the cooldown installs (id, now)
in the guard. -/
theorem processTimeOut_guard_update (env : NetEnv) (id now : Nat) (s : DeviceState)
    (hc : ¬(id = s.lastSentFingerprint ∧ elapsed32 now s.lastSentMillis < SEND_COOLDOWN_MS)) :
    (processTimeOut (ScanResult.matched id) now env s).1.lastSentFingerprint = id ∧
    (processTimeOut (ScanResult.matched id) now env s).1.lastSentMillis = now := by
  simp only [processTimeOut]
  rw [if_neg hc]
  constructor
  · simpa using (post_preserves_guard env id timeOutStr
      { s with lastSentFingerprint := id, lastSentMillis := now }).1
  · simpa using (post_preserves_guard env id timeOutStr
      { s with lastSentFingerprint := id, lastSentMillis := now }).2

/-- The POSTs of a proceeding Time-In scan are exactly those of its
postAttendance call; the screens around it add none. -/
theorem countPost_processTimeIn_proceed (env : NetEnv) (id now : Nat) (s : DeviceState)
    (hc : ¬(id = s.lastSentFingerprint ∧ elapsed32 now s.lastSentMillis < SEND_COOLDOWN_MS))
    (hmem : id ∉ s.studentsTimeIn) :
    countPost (processTimeIn (ScanResult.matched id) now env s).2 =
      countPost (postAttendance env id timeInStr
        { s with lastSentFingerprint := id, lastSentMillis := now }).2.2 := by
  simp only [processTimeIn]
  rw [if_neg hc, if_neg hmem]
  cases hok : (postAttendance env id timeInStr
      { s with lastSentFingerprint := id, lastSentMillis := now }).1 <;>
    simp [hok, countPost, countPost_append, displayMessage, countPost_modeScreen]

/-- The POSTs of a proceeding Time-Out scan are exactly those of its
postAttendance call. -/
theorem countPost_processTimeOut_proceed (env : NetEnv) (id now : Nat) (s : DeviceState)
    (hc : ¬(id = s.lastSentFingerprint ∧ elapsed32 now s.lastSentMillis < SEND_COOLDOWN_MS)) :
    countPost (processTimeOut (ScanResult.matched id) now env s).2 =
      countPost (postAttendance env id timeOutStr
        { s with lastSentFingerprint := id, lastSentMillis := now }).2.2 := by
  simp only [processTimeOut]
  rw [if_neg hc]
  cases hok : (postAttendance env id timeOutStr
      { s with lastSentFingerprint := id, lastSentMillis := now }).1 <;>
    simp [hok, countPost, countPost_append, displayMessage, countPost_modeScreen]

/-- C3 counterexample: a matched Time-In scan of id 5 in a state whose
local Time-In set already holds 5, with a cooldown that does not apply
(guard holds id 0), leaves the guard unchanged and performs no network
call — the claim's final sentence (cooldown miss implies guard update
and submission) fails on this input. -/
theorem C3_counterexample :
    ¬(5 = sDup.lastSentFingerprint ∧
        elapsed32 999999 sDup.lastSentMillis < SEND_COOLDOWN_MS) ∧
    (processTimeIn (ScanResult.matched 5) 999999 envOk sDup).1 = sDup ∧
    (processTimeIn (ScanResult.matched 5) 999999 envOk sDup).1.lastSentFingerprint ≠ 5 ∧
    countPost (processTimeIn (ScanResult.matched 5) 999999 envOk sDup).2 = 0 := by
  decide

/-- C3 (amended): a matched scan hitting the cooldown guard is suppressed
before any network I/O with no display beyond the idle mode screen; a
matched scan on which the cooldown does not apply and which — for
Time-In — is not already logged locally updates the guard to (id, now)
and proceeds to the submission (exactly one POST whenever the event id
is cached and WiFi is up), after which a second matched scan of the same
id within the cooldown window is suppressed by either handler with no
network I/O and no display change beyond the mode screen. -/
theorem C3_cooldown_dedup (env env2 : NetEnv) (id now now2 : Nat) (s : DeviceState) :
    ((id = s.lastSentFingerprint → elapsed32 now s.lastSentMillis < SEND_COOLDOWN_MS →
       processTimeIn (ScanResult.matched id) now env s = (s, [displayModeScreen s]) ∧
       processTimeOut (ScanResult.matched id) now env s = (s, [displayModeScreen s]))) ∧
    (¬(id = s.lastSentFingerprint ∧ elapsed32 now s.lastSentMillis < SEND_COOLDOWN_MS) →
      id ∉ s.studentsTimeIn →
      (processTimeIn (ScanResult.matched id) now env s).1.lastSentFingerprint = id ∧
      (processTimeIn (ScanResult.matched id) now env s).1.lastSentMillis = now ∧
      (s.currentEventId.length ≠ 0 → env.wifiUp = true →
        countPost (processTimeIn (ScanResult.matched id) now env s).2 = 1) ∧
      (elapsed32 now2 now < SEND_COOLDOWN_MS →
        processTimeIn (ScanResult.matched id) now2 env2
            (processTimeIn (ScanResult.matched id) now env s).1 =
          ((processTimeIn (ScanResult.matched id) now env s).1,
            [displayModeScreen (processTimeIn (ScanResult.matched id) now env s).1]) ∧
        processTimeOut (ScanResult.matched id) now2 env2
            (processTimeIn (ScanResult.matched id) now env s).1 =
          ((processTimeIn (ScanResult.matched id) now env s).1,
            [displayModeScreen (processTimeIn (ScanResult.matched id) now env s).1]))) ∧
    (¬(id = s.lastSentFingerprint ∧ elapsed32 now s.lastSentMillis < SEND_COOLDOWN_MS) →
      (processTimeOut (ScanResult.matched id) now env s).1.lastSentFingerprint = id ∧
      (processTimeOut (ScanResult.matched id) now env s).1.lastSentMillis = now ∧
      (s.currentEventId.length ≠ 0 → env.wifiUp = true →
        countPost (processTimeOut (ScanResult.matched id) now env s).2 = 1) ∧
      (elapsed32 now2 now < SEND_COOLDOWN_MS →
        processTimeIn (ScanResult.matched id) now2 env2
            (processTimeOut (ScanResult.matched id) now env s).1 =
          ((processTimeOut (ScanResult.matched id) now env s).1,
            [displayModeScreen (processTimeOut (ScanResult.matched id) now env s).1]))) := by
  refine ⟨?_, ?_, ?_⟩
  · intro h1 h2
    exact ⟨processTimeIn_suppressed env id now s h1 h2,
           processTimeOut_suppressed env id now s h1 h2⟩
  · intro hc hmem
    obtain ⟨g1, g2⟩ := processTimeIn_guard_update env id now s hc hmem
    refine ⟨g1, g2, ?_, ?_⟩
    · intro hlen hw
      rw [countPost_processTimeIn_proceed env id now s hc hmem]
      exact countPost_post_online env id timeInStr _ (by simpa using hlen) hw
    · intro hwin
      constructor
      · exact processTimeIn_suppressed env2 id now2 _ g1.symm (by rw [g2]; exact hwin)
      · exact processTimeOut_suppressed env2 id now2 _ g1.symm (by rw [g2]; exact hwin)
  · intro hc
    obtain ⟨g1, g2⟩ := processTimeOut_guard_update env id now s hc
    refine ⟨g1, g2, ?_, ?_⟩
    · intro hlen hw
      rw [countPost_processTimeOut_proceed env id now s hc]
      exact countPost_post_online env id timeOutStr _ (by simpa using hlen) hw
    · intro hwin
      exact processTimeIn_suppressed env2 id now2 _ g1.symm (by rw [g2]; exact hwin)

/-- C3 witness: a fresh matched Time-In scan of id 5 with event E1
cached and WiFi up performs exactly one POST. -/
theorem C3_cooldown_dedup_witness :
    countPost (processTimeIn (ScanResult.matched 5) 10 envOk s0).2 = 1 := by
  exact ((C3_cooldown_dedup envOk envOk 5 10 12 s0).2.1 (by decide) (by decide)).2.2.1
    (by decide) (by decide)

/-- A list stays duplicate-free when an element not in it is appended. -/
theorem nodup_append_single (l : List Nat) (a : Nat) (h : l.Nodup) (ha : a ∉ l) :
    (l ++ [a]).Nodup := by
  induction l with
  | nil => simp
  | cons b t ih =>
    simp only [List.nodup_cons] at h
    simp only [List.mem_cons, not_or] at ha
    simp only [List.cons_append, List.nodup_cons]
    refine ⟨?_, ih h.2 ha.2⟩
    simp only [List.mem_append, List.mem_singleton]
    rintro (hb | hb)
    · exact h.1 hb
    · exact ha.1 hb.symm

/-- postAttendance keeps the Time-In set, clears it (via a 404-triggered
refresh), or — for a successful Time-In only — appends the submitted id. -/
theorem post_set_cases (env : NetEnv) (fp : Nat) (ty : String) (s : DeviceState) :
    (postAttendance env fp ty s).2.1.studentsTimeIn = s.studentsTimeIn ∨
    (postAttendance env fp ty s).2.1.studentsTimeIn = [] ∨
    (ty = timeInStr ∧
      (postAttendance env fp ty s).2.1.studentsTimeIn = s.studentsTimeIn ++ [fp]) := by
  simp only [postAttendance]
  split
  · left; rfl
  · split
    · left; rfl
    · split
      · by_cases hty : ty = timeInStr
        · right; right; exact ⟨hty, by simp [hty]⟩
        · left; simp [hty]
      · split
        · rcases refresh_set_cases env.refreshResp s with h1 | h1
          · left; simpa using h1
          · right; left; simpa using h1
        · left; rfl

/-- C10: LocalTimeInSet never acquires a duplicate: starting from a
duplicate-free studentsTimeIn, every refreshActiveEvent, processTimeIn
and processTimeOut step leaves it duplicate-free — an id is appended
only by a successful Time-In submission, which is reached only after the
already-logged-locally check, and event changes clear the whole set. -/
theorem C10_localTimeInSet_nodup (s : DeviceState) (h : s.studentsTimeIn.Nodup) :
    (∀ resp, ((refreshActiveEvent resp s).1.studentsTimeIn).Nodup) ∧
    (∀ scan now env, ((processTimeIn scan now env s).1.studentsTimeIn).Nodup) ∧
    (∀ scan now env, ((processTimeOut scan now env s).1.studentsTimeIn).Nodup) := by
  refine ⟨?_, ?_, ?_⟩
  · intro resp
    rcases refresh_set_cases resp s with h1 | h1 <;> simp [h1, h]
  · intro scan now env
    cases scan with
    | noFinger => simpa [processTimeIn] using h
    | extractFailed => simpa [processTimeIn] using h
    | noMatch => simpa [processTimeIn] using h
    | matched id =>
      by_cases hcool : id = s.lastSentFingerprint ∧
          elapsed32 now s.lastSentMillis < SEND_COOLDOWN_MS
      · rw [processTimeIn_suppressed env id now s hcool.1 hcool.2]
        simpa using h
      · by_cases hmem : id ∈ s.studentsTimeIn
        · simp only [processTimeIn]
          rw [if_neg hcool, if_pos hmem]
          simpa using h
        · simp only [processTimeIn]
          rw [if_neg hcool, if_neg hmem]
          show ((postAttendance env id timeInStr
            { s with lastSentFingerprint := id, lastSentMillis := now }).2.1.studentsTimeIn).Nodup
          rcases post_set_cases env id timeInStr
              { s with lastSentFingerprint := id, lastSentMillis := now } with h1 | h1 | h1
          · rw [h1]; simpa using h
          · rw [h1]; simp
          · rw [h1.2]
            exact nodup_append_single _ _ (by simpa using h) (by simpa using hmem)
  · intro scan now env
    cases scan with
    | noFinger => simpa [processTimeOut] using h
    | extractFailed => simpa [processTimeOut] using h
    | noMatch => simpa [processTimeOut] using h
    | matched id =>
      by_cases hcool : id = s.lastSentFingerprint ∧
          elapsed32 now s.lastSentMillis < SEND_COOLDOWN_MS
      · rw [processTimeOut_suppressed env id now s hcool.1 hcool.2]
        simpa using h
      · simp only [processTimeOut]
        rw [if_neg hcool]
        show ((postAttendance env id timeOutStr
          { s with lastSentFingerprint := id, lastSentMillis := now }).2.1.studentsTimeIn).Nodup
        rcases post_set_cases env id timeOutStr
            { s with lastSentFingerprint := id, lastSentMillis := now } with h1 | h1 | h1
        · rw [h1]; simpa using h
        · rw [h1]; simp
        · exact absurd h1.1 (by decide)

/-- C10 witness: one successful Time-In submission of id 5 from the
fresh state keeps the set duplicate-free. -/
theorem C10_localTimeInSet_nodup_witness :
    ((processTimeIn (ScanResult.matched 5) 10 envOk s0).1.studentsTimeIn).Nodup := by
  exact (C10_localTimeInSet_nodup s0 (by decide)).2.1 (ScanResult.matched 5) 10 envOk

/-- C7: the numeric-entry loop appends digit keys only while fewer than
4 digits are held (a fifth digit leaves the entry unchanged), finishes
on the terminator key, removes the last digit on the backspace key,
and honours a pending Home signal on every poll iteration — however far
the entry has progressed without exiting, a Home event cancels it; a
cancelled entry yields (0, Home) while a finished entry yields some
value paired with the unchanged Enroll mode, that value being 0
(invalid) or an identifier in 1..1000, so the cancelled outcome is
distinguishable both from the invalid outcome and from every returned
identifier. -/
theorem C7_keypad_numeric_entry :
    (∀ c rest acc, '0' ≤ c → c ≤ '9' →
      keypadLoop (KeyEv.press c :: rest) acc =
        keypadLoop rest (if acc.length < 4 then acc.push c else acc)) ∧
    (∀ rest acc, keypadLoop (KeyEv.press '#' :: rest) acc = some (KeypadExit.finished acc)) ∧
    (∀ rest acc, keypadLoop (KeyEv.press '*' :: rest) acc =
      keypadLoop rest (if 0 < acc.length then acc.dropRight 1 else acc)) ∧
    (∀ pre post acc, keypadLoop pre acc = none →
      keypadLoop (pre ++ KeyEv.home :: post) acc = some KeypadExit.canceledEntry) ∧
    (∀ evs, keypadLoop evs idString0 = some KeypadExit.canceledEntry →
      getKeypadID evs OperationMode.modeEnroll = some (0, OperationMode.modeHome)) ∧
    (∀ evs acc, keypadLoop evs idString0 = some (KeypadExit.finished acc) →
      ∃ v, getKeypadID evs OperationMode.modeEnroll = some (v, OperationMode.modeEnroll) ∧
        (v = 0 ∨ (1 ≤ v ∧ v ≤ 1000))) ∧
    (((0 : Nat), OperationMode.modeHome) ≠ ((0 : Nat), OperationMode.modeEnroll) ∧
      ∀ v : Nat, 1 ≤ v →
        ((v, OperationMode.modeEnroll) ≠ ((0 : Nat), OperationMode.modeHome) ∧
          (v, OperationMode.modeEnroll) ≠ ((0 : Nat), OperationMode.modeEnroll))) := by
  refine ⟨?_, ?_, ?_, ?_, ?_, ?_, ?_⟩
  · intro c rest acc h1 h2
    simp only [keypadLoop]
    rw [if_pos ⟨h1, h2⟩]
  · intro rest acc
    simp only [keypadLoop]
    rw [if_neg (by decide)]
    simp
  · intro rest acc
    simp only [keypadLoop]
    rw [if_neg (by decide), if_neg (by decide)]
    simp
  · intro pre
    induction pre with
    | nil =>
      intro post acc _
      simp [keypadLoop]
    | cons e rest ih =>
      intro post acc h
      cases e with
      | home => simp [keypadLoop] at h
      | idle =>
        simp only [keypadLoop] at h
        simp only [List.cons_append, keypadLoop]
        exact ih post acc h
      | press c =>
        by_cases hd : '0' ≤ c ∧ c ≤ '9'
        · simp only [keypadLoop, if_pos hd] at h
          simp only [List.cons_append, keypadLoop, if_pos hd]
          exact ih post _ h
        · by_cases hh : c = '#'
          · subst hh
            simp only [keypadLoop, if_neg hd] at h
            simp at h
          · by_cases hs : c = '*'
            · subst hs
              simp only [keypadLoop, if_neg hd, if_neg hh] at h
              simp only [List.cons_append, keypadLoop, if_neg hd, if_neg hh]
              simp only [if_true] at h ⊢
              exact ih post _ h
            · simp only [keypadLoop, if_neg hd, if_neg hh, if_neg hs] at h
              simp only [List.cons_append, keypadLoop, if_neg hd, if_neg hh, if_neg hs]
              exact ih post _ h
  · intro evs h
    simp only [getKeypadID, h]
  · intro evs acc h
    simp only [getKeypadID, h]
    by_cases h1 : 0 < acc.length
    · by_cases h2 : 1 ≤ strToInt acc ∧ strToInt acc ≤ 1000
      · exact ⟨strToInt acc, by rw [if_pos h1, if_pos h2], Or.inr h2⟩
      · exact ⟨0, by rw [if_pos h1, if_neg h2], Or.inl rfl⟩
    · exact ⟨0, by rw [if_neg h1], Or.inl rfl⟩
  · constructor
    · decide
    · intro v hv
      constructor
      · intro h
        have : v = 0 := congrArg Prod.fst h
        omega
      · intro h
        have : v = 0 := congrArg Prod.fst h
        omega

/-- C7 witness: a pending Home event after one digit cancels the entry. -/
theorem C7_keypad_numeric_entry_witness :
    keypadLoop [KeyEv.press '5'] idString0 = none ∧
    keypadLoop ([KeyEv.press '5'] ++ KeyEv.home :: []) idString0
      = some KeypadExit.canceledEntry := by
  refine ⟨by decide, ?_⟩
  exact C7_keypad_numeric_entry.2.2.2.1 [KeyEv.press '5'] [] idString0 (by decide)

/-- The 200 branch of refreshActiveEvent always installs exactly the
extracted id field as the cached event id. -/
theorem refresh200_eventId (p : String) (s : DeviceState) :
    (refreshActiveEvent (NetResult.http 200 p) s).1.currentEventId =
      String.mk (extractQuoted idMarker p.data) := by
  simp only [refreshActiveEvent]
  simp only [if_true]
  split <;> simp

/-- When findFrom reports an occurrence, the needle really starts there. -/
theorem findFrom_isPrefixOf (needle : List Char) (hay : List Char) (i : Nat)
    (h : findFrom needle hay = some i) : needle.isPrefixOf (hay.drop i) = true := by
  induction hay generalizing i with
  | nil =>
    simp only [findFrom] at h
    split at h
    · rename_i hn
      simp only [Option.some.injEq] at h
      subst h
      simp [hn]
    · simp at h
  | cons c rest ih =>
    simp only [findFrom] at h
    split at h
    · rename_i hp
      simp only [Option.some.injEq] at h
      subst h
      simpa using hp
    · cases hf : findFrom needle rest with
      | none =>
        rw [hf] at h
        simp at h
      | some j =>
        rw [hf] at h
        simp only [Option.map_some', Option.some.injEq] at h
        subst h
        simpa using ih j hf

/-- A found single-character needle splits the haystack at its first
occurrence: everything before it is free of that character. -/
theorem findFrom_single_decomp (a : Char) (l : List Char) (j : Nat)
    (h : findFrom [a] l = some j) :
    l = l.take j ++ a :: l.drop (j + 1) ∧ a ∉ l.take j ∧ j < l.length := by
  induction l generalizing j with
  | nil =>
    simp only [findFrom] at h
    split at h
    · rename_i hn
      simp at hn
    · simp at h
  | cons c rest ih =>
    simp only [findFrom] at h
    split at h
    · rename_i hp
      simp only [Option.some.injEq] at h
      subst h
      have hac : a = c := by
        simpa [List.isPrefixOf] using hp
      subst hac
      refine ⟨by simp, by simp, by simp⟩
    · rename_i hp
      have hac : ¬ a = c := by
        simpa [List.isPrefixOf] using hp
      cases hf : findFrom [a] rest with
      | none =>
        rw [hf] at h
        simp at h
      | some j2 =>
        rw [hf] at h
        simp only [Option.map_some', Option.some.injEq] at h
        subst h
        obtain ⟨h1, h2, h3⟩ := ih j2 hf
        refine ⟨?_, ?_, ?_⟩
        · simp only [List.take_succ_cons, List.drop_succ_cons, List.cons_append]
          exact congrArg (List.cons c) h1
        · simp only [List.take_succ_cons]
          intro hmem
          rcases List.mem_cons.mp hmem with h4 | h4
          · exact hac h4
          · exact h2 h4
        · simp only [List.length_cons]
          omega

/-- A non-empty extraction certifies the payload's shape: the marker is
really present, immediately followed by the extracted characters and a
closing quote, and the extracted run itself holds no quote. -/
theorem extractQuoted_spec (marker payload : List Char)
    (hne : extractQuoted marker payload ≠ []) :
    ∃ pre post, payload = pre ++ marker ++ extractQuoted marker payload ++ quoteChar :: post ∧
      quoteChar ∉ extractQuoted marker payload := by
  cases hf : findFrom marker payload with
  | none => exact absurd (by simp [extractQuoted, hf]) hne
  | some i =>
    cases hq : findFrom [quoteChar] (payload.drop (i + marker.length)) with
    | none => exact absurd (by simp [extractQuoted, hf, hq]) hne
    | some j =>
      by_cases hj : 0 < j
      · have hext : extractQuoted marker payload =
            List.take j (payload.drop (i + marker.length)) := by
          simp [extractQuoted, hf, hq, hj]
        have hpre := findFrom_isPrefixOf marker payload i hf
        obtain ⟨t, ht⟩ : marker <+: payload.drop i := List.isPrefixOf_iff_prefix.mp hpre
        have h1 : List.drop marker.length (List.drop i payload) =
            List.drop (i + marker.length) payload := by
          rw [List.drop_drop]
        have hteq : payload.drop (i + marker.length) = t := by
          rw [← h1, ← ht, List.drop_left]
        obtain ⟨hr1, hr2, hr3⟩ := findFrom_single_decomp quoteChar
          (payload.drop (i + marker.length)) j hq
        have hdropi : payload.drop i =
            marker ++ (List.take j (payload.drop (i + marker.length)) ++
              quoteChar :: List.drop (j + 1) (payload.drop (i + marker.length))) := by
          rw [← hr1, hteq, ht]
        refine ⟨payload.take i, List.drop (j + 1) (payload.drop (i + marker.length)), ?_, ?_⟩
        · rw [hext]
          conv_lhs => rw [← List.take_append_drop i payload, hdropi]
          simp [List.append_assoc]
        · rw [hext]
          exact hr2
      · exact absurd (by simp [extractQuoted, hf, hq, hj]) hne

/-- C8: the ad hoc extraction of the 200-branch is total (it is a plain
function of the payload) and defensive: whenever the cached event id it
leaves behind is non-empty, the payload really contained the id marker
followed by a non-empty quote-terminated value — contrapositively, any
payload lacking a recognizable id field (in particular one where the
marker never occurs) leaves the cached event id empty, the
no-active-event interpretation, and never a failure. -/
theorem C8_defensive_extraction (payload : String) (s : DeviceState) :
    ((refreshActiveEvent (NetResult.http 200 payload) s).1.currentEventId ≠ "" →
      ∃ pre v post, payload.data = pre ++ idMarker ++ v ++ quoteChar :: post ∧
        v ≠ [] ∧ quoteChar ∉ v ∧
        (refreshActiveEvent (NetResult.http 200 payload) s).1.currentEventId = String.mk v) ∧
    (findFrom idMarker payload.data = none →
      (refreshActiveEvent (NetResult.http 200 payload) s).1.currentEventId = "") := by
  constructor
  · intro hne
    rw [refresh200_eventId] at hne ⊢
    have hne2 : extractQuoted idMarker payload.data ≠ [] := by
      intro h0
      apply hne
      rw [h0]
    obtain ⟨pre, post, heq, hnotin⟩ := extractQuoted_spec idMarker payload.data hne2
    exact ⟨pre, extractQuoted idMarker payload.data, post, heq, hne2, hnotin, rfl⟩
  · intro hf
    rw [refresh200_eventId]
    simp only [extractQuoted, hf]

/-- C8 witness: a payload carrying id E1 yields a non-empty cached id
and the certified decomposition. -/
theorem C8_defensive_extraction_witness :
    (refreshActiveEvent (NetResult.http 200 payloadE1) s0).1.currentEventId ≠ "" ∧
    ∃ pre v post, payloadE1.data = pre ++ idMarker ++ v ++ quoteChar :: post ∧ v ≠ [] ∧
      quoteChar ∉ v ∧
      (refreshActiveEvent (NetResult.http 200 payloadE1) s0).1.currentEventId = String.mk v := by
  refine ⟨by decide, ?_⟩
  exact (C8_defensive_extraction payloadE1 s0).1 (by decide)

end AttendanceTerminal
